import Mathlib

/-!
Verification of the MaNGA DAP excerpt against its natural-language
specification.  The Python modules embedded here are:

* `mangadap/util/fileio.py` (1-D spectrum read/write round trip),
* `mangadap/proc/reductionassessments.py` (configuration validation, the
  method registry, and `ReductionAssessment.compute`),
* `mangadap/par/bandheadindexdb.py` (`BandheadIndexDB._parse_yanny`),
* `mangadap/util/extinction.py` (the Fitzpatrick-Massa reddening vector),
* `examples/one_spec.py` (error-vector construction for the fitters).

Machine floats are modelled by exact rationals (and by real numbers where
a fractional power is computed); Python exceptions are modelled by an
`Except` monad over an explicit error type; the filesystem is modelled by
an association list from paths to file contents.
-/

set_option autoImplicit false

namespace Mangadap

/-- The Python exception classes raised by the embedded code. -/
inductive PyErr where
  | valueError
  | typeError
  | keyError
  | fileNotFoundError
  | ioError
  | notADirectoryError
  | configError
  | exception
  deriving DecidableEq, Repr

/-- First-match association lookup, the model of Python dictionary and
header indexing used throughout this file. -/
def alookup {β : Type} : List (String × β) → String → Option β
  | [], _ => none
  | (k, v) :: rest, key => if k = key then some v else alookup rest key

/-- Decidable equality of `Except` results, used by concrete witnesses. -/
instance {e a : Type} [DecidableEq e] [DecidableEq a] : DecidableEq (Except e a) := fun x y =>
  match x, y with
  | .error u, .error v => if h : u = v then isTrue (by rw [h]) else isFalse (by simp [h])
  | .ok u, .ok v => if h : u = v then isTrue (by rw [h]) else isFalse (by simp [h])
  | .error _, .ok _ => isFalse (by simp)
  | .ok _, .error _ => isFalse (by simp)

/-! ## mangadap/util/fileio.py -/

/-- The header cards of a 1-D spectrum file that `wavelength_vector`,
`readfits_1dspec` and `writefits_1dspec` touch. -/
structure Spec1dHeader where
  crval1 : ℚ
  crpix1 : ℚ
  cdelt1 : ℚ
  cd1_1 : ℚ
  deriving DecidableEq, Repr

/-- One header-data unit of a simple spectrum file: the dimensionality of
the primary data array (the NAXIS card) and its contents. -/
structure SpecHDU where
  naxis : ℕ
  data : List ℚ
  hdr : Spec1dHeader
  deriving DecidableEq, Repr

/-- A FITS file as consumed by `readfits_1dspec`: a list of HDUs. -/
structure SpecFits where
  hdus : List SpecHDU
  deriving DecidableEq, Repr

/-- The linear part of `fileio.wavelength_vector`:
`(numpy.arange(1.0, npix+1) - crpix)*cdelt + crval`. -/
def wavelength_vector_base (npix : ℕ) (crval crpix cdelt : ℚ) : List ℚ :=
  (List.range npix).map fun i : ℕ => ((i : ℚ) + 1 - crpix) * cdelt + crval

/-- `fileio.wavelength_vector`: the linear vector, exponentiated base 10
when `log10` is set. -/
noncomputable def wavelength_vector (npix : ℕ) (h : Spec1dHeader) (log10 : Bool) : List ℝ :=
  if log10 then
    (wavelength_vector_base npix h.crval1 h.crpix1 h.cdelt1).map fun w : ℚ => (10 : ℝ) ^ (w : ℝ)
  else
    (wavelength_vector_base npix h.crval1 h.crpix1 h.cdelt1).map fun w : ℚ => (w : ℝ)

/-- `fileio.readfits_1dspec`: errors unless the file has exactly one
extension whose data are one dimensional; otherwise returns the
wavelength vector and a copy of the flux. -/
noncomputable def readfits_1dspec (f : SpecFits) (log10 : Bool) :
    Except PyErr (List ℝ × List ℚ) :=
  if f.hdus.length ≠ 1 then .error .exception
  else
    match f.hdus with
    | [hdu0] =>
      if hdu0.naxis ≠ 1 then .error .exception
      else .ok (wavelength_vector hdu0.data.length hdu0.hdr log10, hdu0.data)
    | _ => .error .exception

/-- `fileio.writefits_1dspec`: writes a single primary HDU holding the
flux vector, with CRPIX1 always set to 1 and CD1_1 copied from CDELT1. -/
def writefits_1dspec (crval1 cdelt1 : ℚ) (flux : List ℚ) : SpecFits :=
  { hdus := [{ naxis := 1
               data := flux
               hdr := { crval1 := crval1, crpix1 := 1, cdelt1 := cdelt1, cd1_1 := cdelt1 } }] }


/-! ## Configuration validation (`reductionassessments.py`) -/

/-- The `[default]` section of a parsed `.ini` method-definition file, as
seen through `configparser` with `allow_no_value=True`: an option can be
present with no value (`none`). -/
structure IniConfig where
  options : List (String × Option String)
  deriving DecidableEq, Repr

/-- Membership test `k in cnfg.options('default')`. -/
def IniConfig.hasOption (c : IniConfig) (k : String) : Bool :=
  (alookup c.options k).isSome

/-- The value of an option when it is present and not `None`. -/
def IniConfig.providedValue (c : IniConfig) (k : String) : Option String :=
  match alookup c.options k with
  | some (some v) => some v
  | _ => none

/-- The test `k in cnfg.options('default') and cnfg['default'][k] is not
None` used to decide whether a definition style was provided. -/
def IniConfig.provided (c : IniConfig) (k : String) : Bool :=
  (c.providedValue k).isSome

/-- `numpy.sum` over the three definition-style booleans. -/
def styleCount (r p f : Bool) : ℕ :=
  (if r then 1 else 0) + (if p then 1 else 0) + (if f then 1 else 0)

/-- Number of definition styles actually provided by a configuration. -/
def numStyles (c : IniConfig) : ℕ :=
  styleCount (c.provided "wave_limits") (c.provided "par_file")
    (c.provided "response_function_file")

/-- `validate_reduction_assessment_config`: the checks of the method
configuration, in source order.  `isfile` abstracts `os.path.isfile`. -/
def validate_reduction_assessment_config (isfile : String → Bool) (cnfg : IniConfig) :
    Except PyErr (Bool × Bool × Bool) :=
  if cnfg.hasOption "key" = false then .error .keyError
  else if cnfg.hasOption "wave_limits" = false ∧ cnfg.hasOption "par_file" = false ∧
      cnfg.hasOption "response_function_file" = false then .error .keyError
  else if numStyles cnfg ≠ 1 then .error .valueError
  else if cnfg.provided "par_file" = true ∧
      isfile ((cnfg.providedValue "par_file").getD "") = false then
    .error .fileNotFoundError
  else if cnfg.provided "response_function_file" = true ∧
      isfile ((cnfg.providedValue "response_function_file").getD "") = false then
    .error .fileNotFoundError
  else
    .ok (cnfg.provided "wave_limits", cnfg.provided "par_file",
         cnfg.provided "response_function_file")

/-! ## The method registry (`available_reduction_assessments`) -/

/-- `ReductionAssessmentDef`: keyword, wavelength range (entries may be
`None`), covariance flag.  The key and covariance keep the optionality a
`configparser` lookup can produce. -/
structure AssessmentMethod where
  key : Option String
  waverange : List (Option ℚ)
  covariance : Option Bool
  deriving DecidableEq, Repr

/-- External collaborators of `available_reduction_assessments`:
`os.path.isfile`, the float parse of the `wave_limits` string, the
`idlutils.airtovac` conversion, and `SectionProxy.getboolean`. -/
structure RegistryEnv where
  isfile : String → Bool
  parseWave : String → List (Option ℚ)
  airtovac : List (Option ℚ) → List (Option ℚ)
  getbool : IniConfig → String → Option Bool

/-- The per-file body of the loop in `available_reduction_assessments`:
validate the configuration, then assemble a `ReductionAssessmentDef` from
a range-style definition (the `par_file` and `response_function_file`
styles raise `ValueError`, "Cannot use par_file or response_function_file
yet!"). -/
def buildMethod (env : RegistryEnv) (c : IniConfig) : Except PyErr AssessmentMethod :=
  match validate_reduction_assessment_config env.isfile c with
  | .error e => .error e
  | .ok (def_range, _, _) =>
    if def_range then
      let in_vacuum : Bool :=
        if c.hasOption "in_vacuum" then (env.getbool c "in_vacuum").getD false else false
      let wr0 := env.parseWave ((c.providedValue "wave_limits").getD "")
      let wr := if in_vacuum then wr0 else env.airtovac wr0
      .ok { key := (alookup c.options "key").join
            waverange := wr
            covariance := env.getbool c "covariance" }
    else .error .valueError

/-- `available_reduction_assessments`: directory and file-count checks,
the per-file assembly loop, and the duplicate-keyword check
`len(numpy.unique(keys)) != len(assessment_methods)`. -/
def available_reduction_assessments (env : RegistryEnv) (dapsrcIsDir : Bool)
    (iniConfigs : List IniConfig) : Except PyErr (List AssessmentMethod) :=
  if dapsrcIsDir = false then .error .notADirectoryError
  else if iniConfigs.length = 0 then .error .ioError
  else
    match iniConfigs.mapM (buildMethod env) with
    | .error e => .error e
    | .ok ms =>
      if (ms.map AssessmentMethod.key).dedup.length ≠ ms.length then .error .keyError
      else .ok ms

/-- A concrete valid range-style configuration, used by witnesses. -/
def cfgRange : IniConfig :=
  { options := [("key", some "RFWHM"), ("wave_limits", some "5600.1,6750.0")] }

/-- A concrete registry environment, used by witnesses. -/
def envTriv : RegistryEnv :=
  { isfile := fun _ => true
    parseWave := fun _ => []
    airtovac := fun l => l
    getbool := fun _ _ => some false }

/-! ## Error vectors for the fitters (`examples/one_spec.py`) -/

/-- Elementwise `numpy.ma.power(ivar, -0.5)` over a masked vector of
reals (`none` is a masked entry).  A masked input stays masked; for an
unmasked value `v` the float power gives `nan` when `v < 0` and `inf`
when `v = 0`, and `numpy.ma.power` masks every non-finite result, so
exactly the non-positive inverse variances come out masked; a positive
entry maps to `v ** (-0.5)`. -/
noncomputable def maPowerNegHalf (x : Option ℝ) : Option ℝ :=
  match x with
  | none => none
  | some v => if v ≤ 0 then none else some (v ^ (-(1 : ℝ)/2))

/-- `ferr = numpy.ma.power(ivar, -0.5)` as built in `fit_one_spect` and
`fit_bulge_spec`; the reshape to a one-row 2-D array changes no value. -/
noncomputable def ferr (ivar : List (Option ℝ)) : List (Option ℝ) :=
  ivar.map maPowerNegHalf

/-! ## Fraction-weighted two-component fitter -/

/-- Modelled from the spec: the input validation of the fraction-weighted
two-component fitter `PPXFFit_frac.fit`.  The module
`mangadap/proc/ppxffit_frac.py` is not part of this source excerpt (only
its call site in `examples/one_spec.py` is), so the check is taken from
the specification text: the fit fails with `ConfigurationError` if the
fraction vector length does not match the element count or any fraction
lies outside the closed interval from 0 to 1, before any fitting work
begins; the fitting work itself is abstracted by `fitWork`. -/
def PPXFFit_frac_fit {R : Type} (nspec : ℕ) (frac : List ℚ) (fitWork : List ℚ → R) :
    Except PyErr R :=
  if frac.length ≠ nspec then .error .configError
  else if frac.any (fun f => decide (f < 0) || decide (1 < f)) then .error .configError
  else .ok (fitWork frac)

/-! ## Bandhead index database (`bandheadindexdb.py`) -/

/-- The DAPBHI table of an SDSS yanny parameter file, column wise. -/
structure DAPBHIData where
  index : List ℤ
  name : List String
  waveref : List String
  blueside : List (List ℚ)
  redside : List (List ℚ)
  integrand : List String
  order : List String
  deriving DecidableEq, Repr

/-- One `BandPassFilterPar`, holding the fields `_parse_yanny` passes to
its constructor. -/
structure BandPassFilterPar where
  index : ℤ
  name : String
  blueside : List ℚ
  redside : List ℚ
  integrand : String
  order : String
  deriving DecidableEq, Repr

/-- The outcome of `_parse_yanny`: the dummy flags and size stored on the
database object, whether the dummy-band warning was issued, and the
parameter list returned. -/
structure BandheadParse where
  dummy : List Bool
  size : ℕ
  warned : Bool
  parlist : List BandPassFilterPar
  deriving DecidableEq, Repr

/-- The dummy-band flags: `numpy.any(blueside < 0, axis=1)` or-ed with
the same over `redside`. -/
def bandheadDummy (par : DAPBHIData) : List Bool :=
  (par.blueside.zip par.redside).map fun br =>
    br.1.any (fun w => decide (w < 0)) || br.2.any (fun w => decide (w < 0))

/-- The per-entry loop of `_parse_yanny`: one `BandPassFilterPar` per
entry, converting air to vacuum wavelengths unless the reference frame is
vac.  `airtovac` abstracts `pydl.goddard.astro.airtovac`. -/
def bandheadEntry (airtovac : List ℚ → List ℚ) (par : DAPBHIData) (i : ℕ) :
    BandPassFilterPar :=
  let invac : Bool := par.waveref.getD i "" = "vac"
  { index := par.index.getD i 0
    name := par.name.getD i ""
    blueside := if invac then par.blueside.getD i [] else airtovac (par.blueside.getD i [])
    redside := if invac then par.redside.getD i [] else airtovac (par.redside.getD i [])
    integrand := par.integrand.getD i ""
    order := par.order.getD i "" }

/-- The list comprehension of `_parse_yanny`: the entries in order. -/
def bandheadParlist (airtovac : List ℚ → List ℚ) (par : DAPBHIData) :
    List BandPassFilterPar :=
  (List.range par.index.length).map (bandheadEntry airtovac par)

/-- `BandheadIndexDB._parse_yanny`: `ValueError` on an empty DAPBHI
table; otherwise the dummy flags, the full entry count as `size`, a
warning (never an error) when a dummy band exists, and one parameter set
per entry with dummy entries included. -/
def BandheadIndexDB_parse_yanny (airtovac : List ℚ → List ℚ) (par : DAPBHIData) :
    Except PyErr BandheadParse :=
  if par.index.length = 0 then .error .valueError
  else
    .ok { dummy := bandheadDummy par
          size := par.index.length
          warned := (bandheadDummy par).any id
          parlist := bandheadParlist airtovac par }

/-- A concrete two-entry bandhead database with one dummy band, used by
the witness. -/
def bandheadDbW : DAPBHIData :=
  { index := [1, 2]
    name := ["a", "b"]
    waveref := ["vac", "vac"]
    blueside := [[100, 200], [-1, -1]]
    redside := [[300, 400], [-1, -1]]
    integrand := ["flambda", "flambda"]
    order := ["b_r", "b_r"] }

/-- The parse result of `bandheadDbW`, used by the witness. -/
def bandheadResultW : BandheadParse :=
  { dummy := bandheadDummy bandheadDbW
    size := bandheadDbW.index.length
    warned := (bandheadDummy bandheadDbW).any id
    parlist := bandheadParlist (fun l => l) bandheadDbW }

/-! ## Reddening vectors (`extinction.py`) -/

/-- Coefficients of the Fitzpatrick-Massa extinction curve. -/
structure FMExtinctionCoefficients where
  k0 : ℚ
  gamma : ℚ
  c1 : ℚ
  c2 : ℚ
  c3 : ℚ
  c4 : ℚ
  deriving DecidableEq, Repr

/-- `FMExtinctionCoefficients.from_Rv`. -/
def FMExtinctionCoefficients.from_Rv (rv : ℚ) : FMExtinctionCoefficients :=
  let c2 : ℚ := -0.824 + 4.717/rv
  { k0 := 4.596, gamma := 0.99, c1 := 2.030 - 3.007*c2, c2 := c2, c3 := 3.23, c4 := 0.41 }

/-- `default_fm_rv`. -/
def default_fm_rv : ℚ := 3.1

/-- What the numerical Fitzpatrick-Massa curve evaluation would consume:
the resolved R_V and the resolved coefficient set. -/
structure FMCurveInputs where
  rv : ℚ
  coeffs : FMExtinctionCoefficients
  deriving DecidableEq, Repr

/-- The argument checks and coefficient selection of
`reddening_vector_fm`; the numerical curve evaluation that follows is
abstracted into the record of what it would use.  `waveNdim` is the
dimensionality of `numpy.atleast_1d(wave)` and `ebvIsFloat` the result of
`isinstance(ebv, float)`.  When `coeffs` is not `None` the source
evaluates `isinstance(FMExtinctionCoefficients)`, a single-argument call
of the two-argument builtin, which itself raises `TypeError` whatever
value `coeffs` holds. -/
def reddening_vector_fm (waveNdim : ℕ) (ebvIsFloat : Bool) (rv : Option ℚ)
    (coeffs : Option FMExtinctionCoefficients) : Except PyErr FMCurveInputs :=
  if waveNdim ≠ 1 then .error .valueError
  else if ebvIsFloat = false then .error .typeError
  else
    match coeffs with
    | some _ => .error .typeError
    | none =>
      let rvUsed := rv.getD default_fm_rv
      .ok { rv := rvUsed, coeffs := FMExtinctionCoefficients.from_Rv rvUsed }

/-- The branch taken by `reddening_vector`: the CCM and Calzetti curves
are abstracted to a record of the branch, after the same wave and ebv
checks those functions perform. -/
inductive ReddeningResult where
  | ccm (original : Bool)
  | fm (inputs : FMCurveInputs)
  | calzetti
  deriving DecidableEq, Repr

/-- The wave and ebv checks shared by `reddening_vector_ccm` and
`reddening_vector_calzetti`, with the curve abstracted. -/
def reddening_vector_checked (waveNdim : ℕ) (ebvIsFloat : Bool) (r : ReddeningResult) :
    Except PyErr ReddeningResult :=
  if waveNdim ≠ 1 then .error .valueError
  else if ebvIsFloat = false then .error .typeError
  else .ok r

/-- The `form` dispatch of `reddening_vector`. -/
def reddening_vector (form : String) (waveNdim : ℕ) (ebvIsFloat : Bool) (rv : Option ℚ)
    (coeffs : Option FMExtinctionCoefficients) : Except PyErr ReddeningResult :=
  if form = "ODonnell" then reddening_vector_checked waveNdim ebvIsFloat (.ccm false)
  else if form = "CCM" then reddening_vector_checked waveNdim ebvIsFloat (.ccm true)
  else if form = "FM" then (reddening_vector_fm waveNdim ebvIsFloat rv coeffs).map .fm
  else if form = "Calzetti" then reddening_vector_checked waveNdim ebvIsFloat .calzetti
  else .error .valueError

/-! ## ReductionAssessment.compute (`reductionassessments.py`) -/

/-- Modelled from the spec: a two-dimensional `Covariance` object in
sparse-triplet form, as produced by `DRPFits.flux_stats` and serialized
by `Covariance.binary_columns` (`mangadap/util/covariance.py` is not part
of this source excerpt): the (i, j, value) triplets plus an optional
per-element variance vector; no dense matrix is kept. -/
structure SparseCov where
  triplets : List (ℕ × ℕ × ℚ)
  varVec : Option (List ℚ)
  deriving DecidableEq, Repr

/-- The columns `Covariance.binary_columns` hands back: the index column,
the covariance-value column, the optional variance column, and the plane
column, which is `none` for a two-dimensional covariance. -/
structure CovBinaryCols where
  indx : List (ℕ × ℕ)
  covar : List ℚ
  var : Option (List ℚ)
  plane : Option (List ℕ)
  deriving DecidableEq, Repr

/-- Modelled from the spec: `Covariance.binary_columns` of a 2-D
covariance in triplet form. -/
def SparseCov.binary_columns (c : SparseCov) : CovBinaryCols :=
  { indx := c.triplets.map fun t => (t.1, t.2.1)
    covar := c.triplets.map fun t => t.2.2
    var := c.varVec
    plane := none }

/-- Abstraction of `mangadap.drpfits.DRPFits` (a module outside this
excerpt): the fields and per-spectrum statistics
`ReductionAssessment.compute` consumes.  `flux` carries the masked rows
of `copy_to_masked_array`; `skyCoo` the result of
`mean_sky_coordinates`; `signal`, `variance` and `snr` the outputs of
`flux_stats`, with `corr2d` the correlation matrix `flux_stats` computes
when covariance is requested. -/
structure DRPFits where
  plate : ℕ
  ifudesign : ℕ
  mode : String
  drpver : String
  hduOpen : Bool
  nspec : ℕ
  spatialIndex : List (List ℤ)
  skyCoo : List (ℚ × ℚ)
  flux : List (List (Option ℚ))
  signal : List ℚ
  variance : List ℚ
  snr : List ℚ
  corr2d : SparseCov
  deriving DecidableEq, Repr

/-- `DRPFits.open_hdu`, as far as `compute` can observe it. -/
def DRPFits.open_hdu (d : DRPFits) : DRPFits := { d with hduOpen := true }

/-- A Python value passed as the `drpf` argument: a `DRPFits` instance
or some other object. -/
inductive PyObj where
  | drp (d : DRPFits)
  | other
  deriving DecidableEq, Repr

/-- One row of the SPECTRUM extension. -/
structure SpectrumRow where
  drpIndex : List ℤ
  skyCoo : ℚ × ℚ
  ellCoo : ℚ × ℚ
  fgoodpix : ℚ
  mineqmax : Bool
  signal : ℚ
  variance : ℚ
  snr : ℚ
  deriving DecidableEq, Repr

/-- An HDU assembled by `compute`: a primary HDU that is empty apart
from its header, a SPECTRUM binary table, or a COVAR binary table with
the sparse covariance columns. -/
inductive HDU where
  | primary (hdr : List (String × Option ℚ))
  | spectrum (rows : List SpectrumRow)
  | covar (indx : List (ℕ × ℕ)) (var : Option (List ℚ)) (covarVals : List ℚ)
  deriving DecidableEq, Repr

/-- An output artifact on disk: its HDU list. -/
structure OutFile where
  hdus : List HDU
  deriving DecidableEq, Repr

/-- Header access `self.hdu['PRIMARY'].header[k]` on a stored artifact:
the primary HDU is the first one. -/
def OutFile.headerVal (f : OutFile) (k : String) : Option (Option ℚ) :=
  match f.hdus with
  | .primary hdr :: _ => alookup hdr k
  | _ => none

/-- Modelled from the spec: `Covariance(source=self.hdu,
primary_ext='COVAR')`, the reopening of the covariance block of an
existing artifact (`mangadap/util/covariance.py` is not part of this
excerpt): the sparse columns of a COVAR extension, when one exists, are
read back into triplet form. -/
def covarianceFromFile (f : OutFile) : Option SparseCov :=
  match f.hdus.filterMap (fun h => match h with
      | .covar indx var covarVals => some (indx, var, covarVals)
      | _ => none) with
  | [] => none
  | (indx, var, covarVals) :: _ =>
    some { triplets := (indx.zip covarVals).map fun t => (t.1.1, t.1.2, t.2)
           varVec := var }

/-- The filesystem seen by `compute`: paths and stored artifacts. -/
abbrev FS : Type := List (String × OutFile)

/-- A write to disk: a later entry shadows an earlier one in `alookup`. -/
def fsStore (fs : FS) (p : String) (f : OutFile) : FS := (p, f) :: fs

/-- The external path and geometry collaborators of `compute`:
`default_dap_reference_path`, `default_dap_file_name` and
`SemiMajorAxisCoo(xc=0, yc=0, rot=0, pa, ell).polar`, all from modules
outside this excerpt. -/
structure Externals where
  defaultRefPath : DRPFits → String
  defaultFileName : DRPFits → String → String
  polar : Option ℚ → Option ℚ → ℚ × ℚ → ℚ × ℚ

/-- The warnings `compute` can issue. -/
inductive Warn where
  | drpUnopened
  | paMismatch
  | ellMismatch
  deriving DecidableEq, Repr

/-- The attributes of a `ReductionAssessment` object that `compute`
reads or assigns; the method fields come from the selected
`ReductionAssessmentDef`. -/
structure RAState where
  methodKey : String
  methodWaverange : List (Option ℚ)
  methodCovariance : Bool
  drpf : Option DRPFits
  directoryPath : Option String
  outputFile : Option String
  hardcopy : Option Bool
  pa : Option ℚ
  ell : Option ℚ
  hdu : Option (List HDU)
  correlation : Option SparseCov
  deriving DecidableEq, Repr

/-- `if pa is not None: self.pa = pa`. -/
def updatedParam (arg cur : Option ℚ) : Option ℚ :=
  match arg with
  | some v => some v
  | none => cur

/-- The unmasked values of a masked spectrum row. -/
def rowValues (r : List (Option ℚ)) : List ℚ := r.filterMap id

/-- FGOODPIX: the fraction of unmasked pixels in a row. -/
def fgoodpix (r : List (Option ℚ)) : ℚ :=
  ((rowValues r).length : ℚ) / (r.length : ℚ)

/-- `numpy.ma.max - numpy.ma.min` over a row: masked when every pixel of
the row is masked. -/
def frange (r : List (Option ℚ)) : Option ℚ :=
  match rowValues r with
  | [] => none
  | x :: xs => some (xs.foldl max x - xs.foldl min x)

/-- MINEQMAX: the flux range is unmasked and below 1e-10 in absolute
value. -/
def mineqmax (r : List (Option ℚ)) : Bool :=
  match frange r with
  | none => false
  | some v => |v| < 1 / 10000000000

/-- One row of the SPECTRUM record array, combining the column
assignments of `compute`. -/
def buildSpectrumRow (ext : Externals) (d : DRPFits) (pa ell : Option ℚ) (i : ℕ) :
    SpectrumRow :=
  let coo := d.skyCoo.getD i (0, 0)
  { drpIndex := d.spatialIndex.getD i []
    skyCoo := coo
    ellCoo := ext.polar pa ell coo
    fgoodpix := fgoodpix (d.flux.getD i [])
    mineqmax := mineqmax (d.flux.getD i [])
    signal := d.signal.getD i 0
    variance := d.variance.getD i 0
    snr := d.snr.getD i 0 }

/-- The SPECTRUM record array: `init_record_array(drpf.nspec, ...)` plus
the column assignments, so one row per spectral element. -/
def buildSpectrumData (ext : Externals) (d : DRPFits) (pa ell : Option ℚ) :
    List SpectrumRow :=
  (List.range d.nspec).map (buildSpectrumRow ext d pa ell)

/-- The HDU list assembled by a fresh computation: the primary header
with PA and ELL, the SPECTRUM table, and the COVAR sparse columns exactly
when the method requests covariance. -/
def assembleHDUs (ext : Externals) (cov : Bool) (d : DRPFits) (pa ell : Option ℚ) :
    List HDU :=
  let hdr : List (String × Option ℚ) := [("PA", pa), ("ELL", ell)]
  let rows := buildSpectrumData ext d pa ell
  if cov then
    let cols := d.corr2d.binary_columns
    [.primary hdr, .spectrum rows, .covar cols.indx cols.var cols.covar]
  else
    [.primary hdr, .spectrum rows]

/-- The output path `os.path.join(self.directory_path,
self.output_file)` produced by `_set_paths`. -/
def computeOfile (ext : Externals) (s : RAState) (directoryPath outputFile : Option String)
    (d : DRPFits) : String :=
  (directoryPath.getD (ext.defaultRefPath d)) ++ "/" ++
    (outputFile.getD (ext.defaultFileName d s.methodKey))

/-- The fresh-computation tail of `compute` (the path taken when the
output file is absent or clobber is set): parameter updates, the dead
plane-column `ValueError` guard, HDU assembly, correlation storage, and
the hardcopy write through `write_hdu` (a routine outside this excerpt,
modelled as storing the HDU list at the output path). -/
def computeNewBranch (ext : Externals) (s2 : RAState) (fs : FS) (d : DRPFits)
    (pa ell : Option ℚ) (ofile : String) (hardcopy : Bool) (w0 : List Warn) :
    Except PyErr (RAState × FS × List Warn) :=
  if s2.methodCovariance ∧ (d.corr2d.binary_columns).plane.isSome then .error .valueError
  else
    let paNew := updatedParam pa s2.pa
    let ellNew := updatedParam ell s2.ell
    let hdus := assembleHDUs ext s2.methodCovariance d paNew ellNew
    let corr : Option SparseCov := if s2.methodCovariance then some d.corr2d else none
    let s3 : RAState := { s2 with pa := paNew, ell := ellNew, hdu := some hdus,
                                  correlation := corr, hardcopy := some hardcopy }
    let fsNew := if hardcopy then fsStore fs ofile { hdus := hdus } else fs
    .ok (s3, fsNew, w0)

/-- `ReductionAssessment.compute`.  `s` is the object (`self`), `fs` the
filesystem, `drpfArg` the `drpf` argument; a successful call returns the
updated object, the updated filesystem, and the warnings issued in
order.  A raised exception leaves object and filesystem unchanged, so an
error value carries no state. -/
def ReductionAssessment_compute (ext : Externals) (s : RAState) (fs : FS)
    (drpfArg : Option PyObj) (pa ell : Option ℚ)
    (directoryPath outputFile : Option String) (hardcopy clobber : Bool) :
    Except PyErr (RAState × FS × List Warn) :=
  match drpfArg with
  | none => .error .valueError
  | some .other => .error .typeError
  | some (.drp d0) =>
    let w0 : List Warn := if d0.hduOpen then [] else [.drpUnopened]
    let d := d0.open_hdu
    let s1 : RAState := { s with drpf := some d }
    let dirPath := directoryPath.getD (ext.defaultRefPath d)
    let outFile := outputFile.getD (ext.defaultFileName d s.methodKey)
    let s2 : RAState := { s1 with directoryPath := some dirPath, outputFile := some outFile }
    let ofile := dirPath ++ "/" ++ outFile
    match alookup fs ofile with
    | some f =>
      if clobber then computeNewBranch ext s2 fs d pa ell ofile hardcopy w0
      else
        match f.headerVal "PA", f.headerVal "ELL" with
        | some fpa, some fell =>
          let w1 : List Warn := if pa.isSome ∧ fpa ≠ pa then [.paMismatch] else []
          let w2 : List Warn := if ell.isSome ∧ fell ≠ ell then [.ellMismatch] else []
          .ok ({ s2 with hdu := some f.hdus, correlation := covarianceFromFile f,
                         pa := fpa, ell := fell }, fs, w0 ++ w1 ++ w2)
        | _, _ => .error .keyError
    | none => computeNewBranch ext s2 fs d pa ell ofile hardcopy w0

/-- Concrete externals for the witnesses. -/
def extW : Externals :=
  { defaultRefPath := fun _ => "ref"
    defaultFileName := fun _ _ => "out.fits"
    polar := fun _ _ coo => coo }

/-- A concrete object state for the witnesses. -/
def stateW : RAState :=
  { methodKey := "RFWHM"
    methodWaverange := [some 5600, some 6750]
    methodCovariance := true
    drpf := none
    directoryPath := none
    outputFile := none
    hardcopy := none
    pa := none
    ell := none
    hdu := none
    correlation := none }

/-- A concrete one-spectrum DRP file for the witnesses. -/
def drpW : DRPFits :=
  { plate := 7443
    ifudesign := 12701
    mode := "CUBE"
    drpver := "v2"
    hduOpen := true
    nspec := 1
    spatialIndex := [[0, 0]]
    skyCoo := [(1, 2)]
    flux := [[some 1, some 2]]
    signal := [3]
    variance := [4]
    snr := [5]
    corr2d := { triplets := [(0, 0, 1)], varVec := none } }

/-- A concrete stored artifact for the witnesses. -/
def fileW : OutFile :=
  { hdus := [.primary [("PA", some 10), ("ELL", some 0)], .spectrum []] }

/-- A concrete filesystem holding `fileW` at the target path. -/
def fsW : FS := [("ref/out.fits", fileW)]

/-- Mapping a pointwise-equal function over `List.range` gives the same
list. -/
theorem range_map_congr {α : Type} {f g : ℕ → α} (n : ℕ) (h : ∀ i, f i = g i) :
    (List.range n).map f = (List.range n).map g := by
  have hfg : f = g := funext h
  rw [hfg]

/-- C8: writing a flux vector with `writefits_1dspec` (which pins CRPIX1
to 1) and reading it back with `readfits_1dspec` at `log10 = false`
returns exactly the written flux together with the wavelength vector
whose zero-based entry `i` (one-based entry `i + 1`) is
`i * cdelt1 + crval1`; the written file has a single one-dimensional HDU,
so neither error branch of the reader can fire on such files. -/
theorem writefits_readfits_roundtrip (crval1 cdelt1 : ℚ) (flux : List ℚ) :
    (writefits_1dspec crval1 cdelt1 flux).hdus.length = 1 ∧
    readfits_1dspec (writefits_1dspec crval1 cdelt1 flux) false =
      .ok ((List.range flux.length).map fun i : ℕ => (i : ℝ) * (cdelt1 : ℝ) + (crval1 : ℝ),
           flux) := by
  refine ⟨rfl, ?_⟩
  have hlist : (wavelength_vector_base flux.length crval1 1 cdelt1).map (fun w : ℚ => (w : ℝ)) =
      (List.range flux.length).map fun i : ℕ => (i : ℝ) * (cdelt1 : ℝ) + (crval1 : ℝ) := by
    unfold wavelength_vector_base
    rw [List.map_map]
    refine range_map_congr flux.length fun i => ?_
    simp only [Function.comp_apply]
    push_cast
    ring
  rw [← hlist]
  rfl

/-- Exactly-one characterization of the boolean style count. -/
theorem styleCount_eq_one_iff (r p f : Bool) :
    styleCount r p f = 1 ↔
      ((r = true ∧ p = false ∧ f = false) ∨ (r = false ∧ p = true ∧ f = false) ∨
        (r = false ∧ p = false ∧ f = true)) := by
  cases r <;> cases p <;> cases f <;> decide

/-- C3: `validate_reduction_assessment_config` raises a key-lookup error
exactly when the `key` option is missing or none of the three definition
styles is present as an option; it raises `ValueError` exactly when the
number of styles actually provided (present with a non-`None` value) is
not one; and on success it returns the three style booleans, exactly one
of which is true, identifying the style provided. -/
theorem validate_reduction_assessment_config_spec (isfile : String → Bool) (c : IniConfig) :
    (validate_reduction_assessment_config isfile c = .error .keyError ↔
      (c.hasOption "key" = false ∨
        (c.hasOption "wave_limits" = false ∧ c.hasOption "par_file" = false ∧
          c.hasOption "response_function_file" = false))) ∧
    (validate_reduction_assessment_config isfile c = .error .valueError ↔
      (c.hasOption "key" = true ∧
        (c.hasOption "wave_limits" = true ∨ c.hasOption "par_file" = true ∨
          c.hasOption "response_function_file" = true) ∧
        numStyles c ≠ 1)) ∧
    (∀ r p f : Bool, validate_reduction_assessment_config isfile c = .ok (r, p, f) →
      r = c.provided "wave_limits" ∧ p = c.provided "par_file" ∧
      f = c.provided "response_function_file" ∧
      ((r = true ∧ p = false ∧ f = false) ∨ (r = false ∧ p = true ∧ f = false) ∨
        (r = false ∧ p = false ∧ f = true))) := by
  unfold validate_reduction_assessment_config
  split_ifs with h1 h2 h3 h4 h5
  · exact ⟨by simp [h1], by simp [h1], fun r p f hok => absurd hok (by simp)⟩
  · exact ⟨by simp [h1, h2], by simp [h2.1, h2.2.1, h2.2.2],
      fun r p f hok => absurd hok (by simp)⟩
  · refine ⟨by simp [h1, h2], ?_, fun r p f hok => absurd hok (by simp)⟩
    have h1x : c.hasOption "key" = true := by simpa using h1
    have hdisj : c.hasOption "wave_limits" = true ∨ c.hasOption "par_file" = true ∨
        c.hasOption "response_function_file" = true := by
      by_contra hcon
      push_neg at hcon
      exact h2 ⟨by simpa using hcon.1, by simpa using hcon.2.1, by simpa using hcon.2.2⟩
    simp [h1x, hdisj, h3]
  · exact ⟨by simp [h1, h2], by simp [h3], fun r p f hok => absurd hok (by simp)⟩
  · exact ⟨by simp [h1, h2], by simp [h3], fun r p f hok => absurd hok (by simp)⟩
  · refine ⟨by simp [h1, h2], by simp [h3], fun r p f hok => ?_⟩
    have hx : c.provided "wave_limits" = r ∧ c.provided "par_file" = p ∧
        c.provided "response_function_file" = f := by
      simpa using hok
    obtain ⟨hr, hp, hf⟩ := hx
    subst hr
    subst hp
    subst hf
    exact ⟨rfl, rfl, rfl, (styleCount_eq_one_iff _ _ _).mp (not_ne_iff.mp h3)⟩

/-- Witness for C3 at a concrete configuration with no options. -/
theorem validate_reduction_assessment_config_spec_witness :
    validate_reduction_assessment_config (fun _ => true) { options := [] } = .error .keyError :=
  (validate_reduction_assessment_config_spec (fun _ => true) { options := [] }).1.mpr
    (Or.inl (by decide))

/-- C4: if the per-file assembly succeeds but two assembled methods share
a key, `available_reduction_assessments` raises `KeyError`; consequently
every method list it returns has pairwise-distinct keys. -/
theorem available_reduction_assessments_unique_keys (env : RegistryEnv) (dir : Bool)
    (cfgs : List IniConfig) :
    (∀ ms, available_reduction_assessments env dir cfgs = .ok ms →
      (ms.map AssessmentMethod.key).Nodup) ∧
    (∀ ms, dir = true → cfgs.length ≠ 0 → cfgs.mapM (buildMethod env) = .ok ms →
      ¬ (ms.map AssessmentMethod.key).Nodup →
      available_reduction_assessments env dir cfgs = .error .keyError) := by
  constructor
  · intro ms h
    unfold available_reduction_assessments at h
    by_cases h1 : dir = false
    · rw [if_pos h1] at h
      exact absurd h (by simp)
    · rw [if_neg h1] at h
      by_cases h2 : cfgs.length = 0
      · rw [if_pos h2] at h
        exact absurd h (by simp)
      · rw [if_neg h2] at h
        rcases hmap : cfgs.mapM (buildMethod env) with e | ms0 <;> rw [hmap] at h
        · exact absurd h (by simp)
        · replace h : (if (ms0.map AssessmentMethod.key).dedup.length ≠ ms0.length then
              Except.error PyErr.keyError else Except.ok ms0) = Except.ok ms := h
          by_cases hd : (ms0.map AssessmentMethod.key).dedup.length ≠ ms0.length
          · rw [if_pos hd] at h
            exact absurd h (by simp)
          · rw [if_neg hd] at h
            have hms : ms0 = ms := by simpa using h
            have hlen : (ms0.map AssessmentMethod.key).dedup.length =
                (ms0.map AssessmentMethod.key).length := by
              rw [List.length_map]
              exact not_ne_iff.mp hd
            have hdedup := List.Sublist.eq_of_length (List.dedup_sublist _) hlen
            rw [← hms]
            exact List.dedup_eq_self.mp hdedup
  · intro ms h1 h2 hmap hnd
    have hd : (ms.map AssessmentMethod.key).dedup.length ≠ ms.length := by
      intro hlen
      refine hnd (List.dedup_eq_self.mp (List.Sublist.eq_of_length (List.dedup_sublist _) ?_))
      rw [List.length_map]
      exact hlen
    unfold available_reduction_assessments
    rw [if_neg (by simp [h1]), if_neg h2, hmap]
    show (if (ms.map AssessmentMethod.key).dedup.length ≠ ms.length then
        Except.error PyErr.keyError else Except.ok ms) = Except.error PyErr.keyError
    rw [if_pos hd]

/-- Witness for C4: two copies of the same valid configuration yield a
duplicate key and a `KeyError`. -/
theorem available_reduction_assessments_unique_keys_witness :
    available_reduction_assessments envTriv true [cfgRange, cfgRange] = .error .keyError :=
  (available_reduction_assessments_unique_keys envTriv true [cfgRange, cfgRange]).2
    [{ key := some "RFWHM", waverange := [], covariance := some false },
     { key := some "RFWHM", waverange := [], covariance := some false }]
    rfl (by decide) (by decide) (by decide)


/-- C5: the per-pixel error vector is the elementwise `ivar ** (-1/2)`; a
pixel is masked in the result exactly when its inverse variance is masked
or non-positive (never replaced by a filled value), and a positive
inverse variance yields `1 / sqrt ivar`. -/
theorem ferr_masks_nonpositive_ivar (ivar : List (Option ℝ)) :
    ferr ivar = ivar.map maPowerNegHalf ∧
    (ferr ivar).length = ivar.length ∧
    maPowerNegHalf none = none ∧
    (∀ v : ℝ, v ≤ 0 → maPowerNegHalf (some v) = none) ∧
    (∀ v : ℝ, 0 < v →
      maPowerNegHalf (some v) = some (v ^ (-(1 : ℝ)/2)) ∧
      v ^ (-(1 : ℝ)/2) = (Real.sqrt v)⁻¹) := by
  refine ⟨rfl, by simp [ferr], rfl, fun v hv => by simp [maPowerNegHalf, hv],
    fun v hv => ⟨by simp [maPowerNegHalf, not_le.mpr hv], ?_⟩⟩
  rw [neg_div, Real.rpow_neg hv.le, ← Real.sqrt_eq_rpow]

/-- Witness for C5: zero and negative inverse variances are masked, a
positive one gives the power value. -/
theorem ferr_masks_nonpositive_ivar_witness :
    maPowerNegHalf (some (0 : ℝ)) = none ∧
    maPowerNegHalf (some (-1 : ℝ)) = none ∧
    maPowerNegHalf (some (4 : ℝ)) = some ((4 : ℝ) ^ (-(1 : ℝ)/2)) :=
  ⟨(ferr_masks_nonpositive_ivar []).2.2.2.1 0 le_rfl,
   (ferr_masks_nonpositive_ivar []).2.2.2.1 (-1) (by norm_num),
   ((ferr_masks_nonpositive_ivar []).2.2.2.2 4 (by norm_num)).1⟩

/-- C7: whenever the fraction vector has the wrong length or some entry
lies outside the closed unit interval, the fraction-weighted fitter
returns `ConfigurationError` whatever the fitting routine would have
computed, so no optimizer invocation and no partial result can occur. -/
theorem PPXFFit_frac_fit_rejects_bad_fractions {R : Type} (nspec : ℕ) (frac : List ℚ)
    (h : frac.length ≠ nspec ∨ ∃ f ∈ frac, f < 0 ∨ 1 < f) :
    ∀ fitWork : List ℚ → R, PPXFFit_frac_fit nspec frac fitWork = .error .configError := by
  intro fitWork
  unfold PPXFFit_frac_fit
  by_cases hl : frac.length ≠ nspec
  · rw [if_pos hl]
  · rw [if_neg hl]
    have hany : frac.any (fun f => decide (f < 0) || decide (1 < f)) = true := by
      rcases h with h | h
      · exact absurd h hl
      · obtain ⟨f, hf, hout⟩ := h
        refine List.any_eq_true.mpr ⟨f, hf, ?_⟩
        simpa only [Bool.or_eq_true, decide_eq_true_eq] using hout
    rw [if_pos hany]

/-- Witness for C7: a fraction of 2 is rejected before any fitting. -/
theorem PPXFFit_frac_fit_rejects_bad_fractions_witness :
    PPXFFit_frac_fit 2 [(1 : ℚ)/2, 2] (fun l => l) = .error .configError :=
  PPXFFit_frac_fit_rejects_bad_fractions 2 [(1 : ℚ)/2, 2]
    (Or.inr ⟨2, by simp, Or.inr (by norm_num)⟩) (fun l => l)

/-- C9: `_parse_yanny` raises `ValueError` exactly on an empty entry
list; on a well-formed nonempty database it returns one parameter set per
entry, dummy entries included, so the stored size is the full entry
count, and the dummy warning fires precisely when some entry has a
negative blueside or redside wavelength. -/
theorem BandheadIndexDB_parse_yanny_spec (airtovac : List ℚ → List ℚ) (par : DAPBHIData)
    (hname : par.name.length = par.index.length)
    (hblue : par.blueside.length = par.index.length)
    (hred : par.redside.length = par.index.length) :
    (par.index.length = 0 → BandheadIndexDB_parse_yanny airtovac par = .error .valueError) ∧
    (∀ r, BandheadIndexDB_parse_yanny airtovac par = .ok r →
      par.index.length ≠ 0 ∧
      r.size = par.index.length ∧
      r.parlist.length = par.index.length ∧
      r.dummy.length = par.index.length ∧
      (r.warned = true ↔ true ∈ r.dummy) ∧
      (∀ i, i < par.index.length → ∃ p, r.parlist.get? i = some p ∧
        p.index = par.index.getD i 0 ∧ p.name = par.name.getD i "")) := by
  constructor
  · intro h0
    unfold BandheadIndexDB_parse_yanny
    rw [if_pos h0]
  · intro r hok
    unfold BandheadIndexDB_parse_yanny at hok
    by_cases h0 : par.index.length = 0
    · rw [if_pos h0] at hok
      exact absurd hok (by simp)
    · rw [if_neg h0] at hok
      have he := Except.ok.inj hok
      subst he
      refine ⟨h0, rfl, ?_, ?_, ?_, ?_⟩
      · simp [bandheadParlist]
      · simp [bandheadDummy, hblue, hred]
      · constructor
        · intro hw
          obtain ⟨b, hb, hbt⟩ := List.any_eq_true.mp hw
          exact (id hbt : b = true) ▸ hb
        · intro ht
          exact List.any_eq_true.mpr ⟨true, ht, rfl⟩
      · intro i hi
        have hget : (bandheadParlist airtovac par).get? i =
            some (bandheadEntry airtovac par i) := by
          rw [bandheadParlist, List.get?_map, List.get?_range hi]
          rfl
        exact ⟨bandheadEntry airtovac par i, hget, rfl, rfl⟩

/-- Witness for C9: a two-entry database with one dummy band parses to
two parameter sets with the warning raised. -/
theorem BandheadIndexDB_parse_yanny_spec_witness :
    bandheadDbW.index.length ≠ 0 ∧
    bandheadResultW.size = bandheadDbW.index.length ∧
    bandheadResultW.parlist.length = bandheadDbW.index.length ∧
    (bandheadResultW.warned = true ↔ true ∈ bandheadResultW.dummy) :=
  have hs := (BandheadIndexDB_parse_yanny_spec (fun l => l) bandheadDbW
    rfl rfl rfl).2 bandheadResultW (by decide)
  ⟨hs.1, hs.2.1, hs.2.2.1, hs.2.2.2.2.1⟩

/-- C10: past the wave and ebv checks, every call of
`reddening_vector_fm` with a non-`None` coeffs argument raises
`TypeError` whatever the value (the isinstance builtin receives a single
argument), so every successful call has coeffs `None` and uses the
coefficients `FMExtinctionCoefficients.from_Rv` derives from rv; the
`reddening_vector` dispatch at form FM forwards coeffs unchanged. -/
theorem reddening_vector_fm_coeffs_unusable (waveNdim : ℕ) (ebvIsFloat : Bool)
    (rv : Option ℚ) (coeffs : Option FMExtinctionCoefficients) :
    (waveNdim = 1 → ebvIsFloat = true → coeffs ≠ none →
      reddening_vector_fm waveNdim ebvIsFloat rv coeffs = .error .typeError) ∧
    (∀ r, reddening_vector_fm waveNdim ebvIsFloat rv coeffs = .ok r →
      coeffs = none ∧ r.rv = rv.getD default_fm_rv ∧
      r.coeffs = FMExtinctionCoefficients.from_Rv (rv.getD default_fm_rv)) ∧
    reddening_vector "FM" waveNdim ebvIsFloat rv coeffs =
      (reddening_vector_fm waveNdim ebvIsFloat rv coeffs).map ReddeningResult.fm := by
  refine ⟨?_, ?_, ?_⟩
  · intro h1 h2 h3
    unfold reddening_vector_fm
    rw [if_neg (by simp [h1]), if_neg (by simp [h2])]
    rcases coeffs with _ | c
    · exact absurd rfl h3
    · rfl
  · intro r hok
    unfold reddening_vector_fm at hok
    by_cases h1 : waveNdim ≠ 1
    · rw [if_pos h1] at hok
      exact absurd hok (by simp)
    · rw [if_neg h1] at hok
      by_cases h2 : ebvIsFloat = false
      · rw [if_pos h2] at hok
        exact absurd hok (by simp)
      · rw [if_neg h2] at hok
        rcases coeffs with _ | c
        · have hinj := Except.ok.inj hok
          exact ⟨rfl, by rw [← hinj], by rw [← hinj]⟩
        · exact absurd hok (by simp)
  · rfl

/-- Witness for C10: a genuine coefficient object still raises
`TypeError`. -/
theorem reddening_vector_fm_coeffs_unusable_witness :
    reddening_vector_fm 1 true (some 3.1) (some (FMExtinctionCoefficients.from_Rv 3.1)) =
      .error .typeError :=
  (reddening_vector_fm_coeffs_unusable 1 true (some 3.1)
    (some (FMExtinctionCoefficients.from_Rv 3.1))).1 rfl rfl (by simp)


/-- Evaluation of the fresh-computation tail: the plane guard never
fires on a two-dimensional covariance, so the branch always succeeds
with the assembled HDUs. -/
theorem computeNewBranch_eq (ext : Externals) (s2 : RAState) (fs : FS) (d : DRPFits)
    (pa ell : Option ℚ) (ofile : String) (hardcopy : Bool) (w0 : List Warn) :
    computeNewBranch ext s2 fs d pa ell ofile hardcopy w0 =
      .ok ({ s2 with pa := updatedParam pa s2.pa, ell := updatedParam ell s2.ell,
                     hdu := some (assembleHDUs ext s2.methodCovariance d
                       (updatedParam pa s2.pa) (updatedParam ell s2.ell)),
                     correlation := (if s2.methodCovariance then some d.corr2d else none),
                     hardcopy := some hardcopy },
            (if hardcopy then fsStore fs ofile
              { hdus := assembleHDUs ext s2.methodCovariance d
                  (updatedParam pa s2.pa) (updatedParam ell s2.ell) } else fs),
            w0) := by
  have hng : ¬(s2.methodCovariance = true ∧ (d.corr2d.binary_columns).plane.isSome = true) := by
    intro h
    simpa [SparseCov.binary_columns] using h.2
  unfold computeNewBranch
  rw [if_neg hng]

/-- C6: an invalid data source fails immediately at stage entry: `None`
raises `ValueError` and a non-`DRPFits` object raises `TypeError`,
uniformly in the object state, the filesystem and every other argument —
so the outcome precedes any path resolution, any file access and any
attribute assignment. -/
theorem compute_fails_fast_on_invalid_drpf (ext : Externals) (s : RAState) (fs : FS)
    (pa ell : Option ℚ) (directoryPath outputFile : Option String)
    (hardcopy clobber : Bool) :
    ReductionAssessment_compute ext s fs none pa ell directoryPath outputFile
      hardcopy clobber = .error .valueError ∧
    ReductionAssessment_compute ext s fs (some .other) pa ell directoryPath outputFile
      hardcopy clobber = .error .typeError :=
  ⟨rfl, rfl⟩

/-- C1: when the output artifact already exists at the computed target
path and clobber is false, `compute` performs no recomputation: it
returns normally with the stored HDUs reopened, the position angle,
ellipticity and covariance taken from the file, the filesystem returned
unchanged, and a mismatch warning issued exactly when a requested
position angle or ellipticity differs from the stored one. -/
theorem compute_reuses_existing_file (ext : Externals) (s : RAState) (fs : FS)
    (d0 : DRPFits) (pa ell : Option ℚ) (directoryPath outputFile : Option String)
    (hardcopy : Bool) (f : OutFile) (fpa fell : Option ℚ)
    (hfile : alookup fs (computeOfile ext s directoryPath outputFile d0.open_hdu) = some f)
    (hpa : f.headerVal "PA" = some fpa)
    (hell : f.headerVal "ELL" = some fell) :
    ∃ sNew w, ReductionAssessment_compute ext s fs (some (.drp d0)) pa ell directoryPath
        outputFile hardcopy false = .ok (sNew, fs, w) ∧
      sNew.hdu = some f.hdus ∧ sNew.pa = fpa ∧ sNew.ell = fell ∧
      sNew.correlation = covarianceFromFile f ∧
      (Warn.paMismatch ∈ w ↔ pa.isSome = true ∧ fpa ≠ pa) ∧
      (Warn.ellMismatch ∈ w ↔ ell.isSome = true ∧ fell ≠ ell) := by
  simp only [computeOfile] at hfile
  simp only [ReductionAssessment_compute, hfile, hpa, hell]
  refine ⟨_, _, rfl, rfl, rfl, rfl, rfl, ?_, ?_⟩
  · by_cases h1 : pa.isSome = true ∧ fpa ≠ pa <;>
      by_cases h2 : ell.isSome = true ∧ fell ≠ ell <;>
        cases hdo : d0.hduOpen <;> simp [h1, h2, hdo]
  · by_cases h1 : pa.isSome = true ∧ fpa ≠ pa <;>
      by_cases h2 : ell.isSome = true ∧ fell ≠ ell <;>
        cases hdo : d0.hduOpen <;> simp [h1, h2, hdo]

/-- Witness for C1 at a concrete filesystem whose stored position angle
differs from the requested one while the ellipticity matches. -/
theorem compute_reuses_existing_file_witness :
    ∃ sNew w, ReductionAssessment_compute extW stateW fsW (some (.drp drpW)) (some 0)
        (some 0) none none true false = .ok (sNew, fsW, w) ∧
      sNew.hdu = some fileW.hdus ∧ sNew.pa = some 10 ∧ sNew.ell = some 0 ∧
      sNew.correlation = covarianceFromFile fileW ∧
      (Warn.paMismatch ∈ w ↔ (some (0 : ℚ)).isSome = true ∧ some (10 : ℚ) ≠ some 0) ∧
      (Warn.ellMismatch ∈ w ↔ (some (0 : ℚ)).isSome = true ∧ some (0 : ℚ) ≠ some 0) :=
  compute_reuses_existing_file extW stateW fsW drpW (some 0) (some 0) none none true
    fileW (some 10) (some 0) (by decide) (by decide) (by decide)

/-- C2: a fresh computation (no artifact at the target path, or clobber
set) returns normally with an HDU list consisting of exactly a primary
HDU whose header carries the PA and ELL values, a SPECTRUM table with one
row per spectral element, and — exactly when the selected method requests
covariance — one COVAR extension holding the sparse columns of the
correlation matrix (index pairs, covariance values, and the optional
variance column); nothing else, so no dense matrix is stored. -/
theorem compute_fresh_output_structure (ext : Externals) (s : RAState) (fs : FS)
    (d0 : DRPFits) (pa ell : Option ℚ) (directoryPath outputFile : Option String)
    (hardcopy clobber : Bool)
    (hfresh : alookup fs (computeOfile ext s directoryPath outputFile d0.open_hdu) = none ∨
      clobber = true) :
    ∃ sNew fsNew w,
      ReductionAssessment_compute ext s fs (some (.drp d0)) pa ell directoryPath
        outputFile hardcopy clobber = .ok (sNew, fsNew, w) ∧
      (buildSpectrumData ext d0.open_hdu (updatedParam pa s.pa)
        (updatedParam ell s.ell)).length = d0.open_hdu.nspec ∧
      (s.methodCovariance = true →
        sNew.hdu = some
          [.primary [("PA", updatedParam pa s.pa), ("ELL", updatedParam ell s.ell)],
           .spectrum (buildSpectrumData ext d0.open_hdu (updatedParam pa s.pa)
             (updatedParam ell s.ell)),
           .covar (d0.open_hdu.corr2d.binary_columns).indx
             (d0.open_hdu.corr2d.binary_columns).var
             (d0.open_hdu.corr2d.binary_columns).covar]) ∧
      (s.methodCovariance = false →
        sNew.hdu = some
          [.primary [("PA", updatedParam pa s.pa), ("ELL", updatedParam ell s.ell)],
           .spectrum (buildSpectrumData ext d0.open_hdu (updatedParam pa s.pa)
             (updatedParam ell s.ell))]) ∧
      sNew.correlation = (if s.methodCovariance then some d0.open_hdu.corr2d else none) ∧
      sNew.pa = updatedParam pa s.pa ∧ sNew.ell = updatedParam ell s.ell := by
  have hlen : (buildSpectrumData ext d0.open_hdu (updatedParam pa s.pa)
      (updatedParam ell s.ell)).length = d0.open_hdu.nspec := by
    simp [buildSpectrumData]
  have hmain : ReductionAssessment_compute ext s fs (some (.drp d0)) pa ell directoryPath
      outputFile hardcopy clobber =
      computeNewBranch ext
        { s with drpf := some d0.open_hdu,
                 directoryPath := some (directoryPath.getD (ext.defaultRefPath d0.open_hdu)),
                 outputFile := some (outputFile.getD
                   (ext.defaultFileName d0.open_hdu s.methodKey)) }
        fs d0.open_hdu pa ell
        (computeOfile ext s directoryPath outputFile d0.open_hdu) hardcopy
        (if d0.hduOpen then [] else [.drpUnopened]) := by
    rcases hfresh with hf | hcl
    · simp only [computeOfile] at hf
      simp only [ReductionAssessment_compute, hf]
      rfl
    · subst hcl
      rcases halk : alookup fs ((directoryPath.getD (ext.defaultRefPath d0.open_hdu)) ++
          "/" ++ (outputFile.getD (ext.defaultFileName d0.open_hdu s.methodKey)))
        with _ | f
      · simp only [ReductionAssessment_compute, halk]
        rfl
      · simp only [ReductionAssessment_compute, halk, if_true]
        rfl
  rw [hmain, computeNewBranch_eq]
  refine ⟨_, _, _, rfl, hlen, ?_, ?_, rfl, rfl, rfl⟩
  · intro hcovs
    dsimp only
    rw [hcovs]
    rfl
  · intro hcovs
    dsimp only
    rw [hcovs]
    rfl

/-- Witness for C2: a fresh clobbering computation on a one-spectrum
file with covariance requested. -/
theorem compute_fresh_output_structure_witness :
    ∃ sNew fsNew w,
      ReductionAssessment_compute extW stateW [] (some (.drp drpW)) (some 30)
        (some (1/2)) none none true true = .ok (sNew, fsNew, w) ∧
      (buildSpectrumData extW drpW.open_hdu (updatedParam (some 30) stateW.pa)
        (updatedParam (some (1/2)) stateW.ell)).length = drpW.open_hdu.nspec ∧
      (stateW.methodCovariance = true →
        sNew.hdu = some
          [.primary [("PA", updatedParam (some 30) stateW.pa),
                     ("ELL", updatedParam (some (1/2)) stateW.ell)],
           .spectrum (buildSpectrumData extW drpW.open_hdu
             (updatedParam (some 30) stateW.pa) (updatedParam (some (1/2)) stateW.ell)),
           .covar (drpW.open_hdu.corr2d.binary_columns).indx
             (drpW.open_hdu.corr2d.binary_columns).var
             (drpW.open_hdu.corr2d.binary_columns).covar]) ∧
      (stateW.methodCovariance = false →
        sNew.hdu = some
          [.primary [("PA", updatedParam (some 30) stateW.pa),
                     ("ELL", updatedParam (some (1/2)) stateW.ell)],
           .spectrum (buildSpectrumData extW drpW.open_hdu
             (updatedParam (some 30) stateW.pa) (updatedParam (some (1/2)) stateW.ell))]) ∧
      sNew.correlation = (if stateW.methodCovariance then some drpW.open_hdu.corr2d
        else none) ∧
      sNew.pa = updatedParam (some 30) stateW.pa ∧
      sNew.ell = updatedParam (some (1/2)) stateW.ell :=
  compute_fresh_output_structure extW stateW [] drpW (some 30) (some (1/2)) none none
    true true (Or.inr rfl)

end Mangadap
